import Mathlib

/-!
Verification of the SlotSwapper backend swap engine.

This file gives a shallow embedding of the slot-swap transaction engine of
the SlotSwapper repository and proves properties about it.  The embedding
follows the source files

  - backend/src/models/Event.ts              (the Slot entity and its statuses)
  - the SwapRequest mongoose schema          (the SwapOffer entity, its statuses
                                              and its unique index on the ordered
                                              pair of slot ids)
  - backend/src/controllers/swapController.ts   (createSwapRequest,
                                                 respondToSwapRequest)
  - backend/src/controllers/eventController.ts  (createEvent, updateEvent,
                                                 deleteEvent)

Persistent state is modelled as association lists keyed by numeric ids.
Each HTTP handler body runs inside a mongoose session transaction
(session.withTransaction); in the embedding a handler is a pure function
from a database state to a response paired with the next database state.
An error response returns the original state: in the source every domain
error is issued before any write of the transaction, and a write failure
(for example a unique-index violation on save) aborts the whole transaction,
which rolls back the writes already buffered in the session and surfaces as
the catch-all 500 INTERNAL_SERVER_ERROR response.
-/

namespace SlotSwapper

/-- Slot statuses, from the EventStatus enum of backend/src/models/Event.ts. -/
inductive EventStatus where
  | BUSY
  | SWAPPABLE
  | SWAP_PENDING
deriving DecidableEq, Repr

/-- Swap request statuses, from the SwapRequestStatus enum of the SwapRequest schema. -/
inductive SwapRequestStatus where
  | PENDING
  | ACCEPTED
  | REJECTED
deriving DecidableEq, Repr

/-- An Event (slot) document, from the IEvent interface of backend/src/models/Event.ts.
Ids and times are modelled as naturals. -/
structure Event where
  userId : Nat
  title : String
  startTime : Nat
  endTime : Nat
  status : EventStatus
deriving DecidableEq, Repr

/-- A SwapRequest document, from the ISwapRequest interface of the SwapRequest schema. -/
structure SwapRequest where
  requesterId : Nat
  requesterSlotId : Nat
  targetUserId : Nat
  targetSlotId : Nat
  status : SwapRequestStatus
deriving DecidableEq, Repr

/-- The persisted state: the Events and SwapRequests collections, keyed by id,
together with the next fresh id for each collection. -/
structure DB where
  events : List (Nat × Event)
  swaps : List (Nat × SwapRequest)
  nextEventId : Nat
  nextSwapId : Nat
deriving DecidableEq, Repr

/-- Error codes returned by the handlers, from the error.code strings of the
controllers.  INTERNAL_SERVER_ERROR is the catch-all 500 issued when the
transaction body throws (for example a unique-index violation on save, or a
property access on a null populated document). -/
inductive ErrCode where
  | SLOT_NOT_FOUND
  | UNAUTHORIZED_SLOT_ACCESS
  | SELF_SWAP_ATTEMPT
  | INVALID_REQUESTER_SLOT_STATUS
  | INVALID_TARGET_SLOT_STATUS
  | DUPLICATE_SWAP_REQUEST
  | INTERNAL_SERVER_ERROR
  | SWAP_REQUEST_NOT_FOUND
  | UNAUTHORIZED_RESPONSE
  | INVALID_REQUEST_STATUS
  | INVALID_SLOT_STATUS
  | NOT_FOUND
  | FORBIDDEN
  | VALIDATION_ERROR
deriving DecidableEq, Repr

/-- The action field of a respondToSwapRequest call, validated by the source to
be accept or reject. -/
inductive SwapAction where
  | accept
  | reject
deriving DecidableEq, Repr

/-- Model of Model.findByIdAndUpdate: replace the record stored under the given
id by the result of applying f to it; every other record is untouched. -/
def updateById {α : Type} (l : List (Nat × α)) (id : Nat) (f : α → α) : List (Nat × α) :=
  l.map fun p => if p.1 = id then (p.1, f p.2) else p

/-- Model of Model.findByIdAndDelete: remove the record stored under the given id. -/
def deleteById {α : Type} (l : List (Nat × α)) (id : Nat) : List (Nat × α) :=
  l.filter fun p => p.1 ≠ id

/-- True when the stored swap request p pairs the two given slots in either
direction and is still PENDING.  This is the findOne filter of
createSwapRequest (swapController.ts lines 107-113). -/
def pendingPairHit (requesterSlotId targetSlotId : Nat) (p : Nat × SwapRequest) : Bool :=
  ((p.2.requesterSlotId == requesterSlotId && p.2.targetSlotId == targetSlotId) ||
   (p.2.requesterSlotId == targetSlotId && p.2.targetSlotId == requesterSlotId)) &&
  p.2.status == SwapRequestStatus.PENDING

/-- True when the stored swap request p occupies the same ordered
(requesterSlotId, targetSlotId) pair as the candidate, regardless of status.
This is the unique compound index of the SwapRequest schema
(swapRequestSchema.index on the ordered pair, unique: true). -/
def orderedPairHit (requesterSlotId targetSlotId : Nat) (p : Nat × SwapRequest) : Bool :=
  p.2.requesterSlotId == requesterSlotId && p.2.targetSlotId == targetSlotId

/-- Embedding of createSwapRequest (swapController.ts lines 6-177).
The checks appear in source order: both slots exist; the requester owns the
requester slot; the requester does not own the target slot; both slots are
SWAPPABLE; no PENDING swap request already pairs the two slots in either
direction.  On success both slots are set to SWAP_PENDING and the new PENDING
request is saved under a fresh id.  The save enforces the unique index over the
ordered slot-id pair and the two pre-save schema validations (distinct users,
distinct slots); a violation throws, aborts the transaction (rolling back the
two slot updates) and surfaces as INTERNAL_SERVER_ERROR. -/
def createSwapRequest (db : DB) (requesterId requesterSlotId targetSlotId : Nat) :
    Except ErrCode Nat × DB :=
  match db.events.lookup requesterSlotId, db.events.lookup targetSlotId with
  | some requesterSlot, some targetSlot =>
    if requesterSlot.userId ≠ requesterId then
      (.error .UNAUTHORIZED_SLOT_ACCESS, db)
    else if targetSlot.userId = requesterId then
      (.error .SELF_SWAP_ATTEMPT, db)
    else if requesterSlot.status ≠ EventStatus.SWAPPABLE then
      (.error .INVALID_REQUESTER_SLOT_STATUS, db)
    else if targetSlot.status ≠ EventStatus.SWAPPABLE then
      (.error .INVALID_TARGET_SLOT_STATUS, db)
    else if db.swaps.any (pendingPairHit requesterSlotId targetSlotId) then
      (.error .DUPLICATE_SWAP_REQUEST, db)
    else if db.swaps.any (orderedPairHit requesterSlotId targetSlotId) then
      (.error .INTERNAL_SERVER_ERROR, db)
    else if requesterId = targetSlot.userId ∨ requesterSlotId = targetSlotId then
      (.error .INTERNAL_SERVER_ERROR, db)
    else
      (.ok db.nextSwapId,
       { db with
          events :=
            updateById
              (updateById db.events requesterSlotId
                fun s => { s with status := EventStatus.SWAP_PENDING })
              targetSlotId fun s => { s with status := EventStatus.SWAP_PENDING },
          swaps :=
            (db.nextSwapId,
             { requesterId := requesterId
               requesterSlotId := requesterSlotId
               targetUserId := targetSlot.userId
               targetSlotId := targetSlotId
               status := SwapRequestStatus.PENDING }) :: db.swaps,
          nextSwapId := db.nextSwapId + 1 })
  | _, _ => (.error .SLOT_NOT_FOUND, db)

/-- Embedding of respondToSwapRequest (swapController.ts lines 179-358).
Checks in source order: the swap request exists; the caller is the target
user; the request is still PENDING; both referenced slots are still
SWAP_PENDING.  On reject both slots revert to SWAPPABLE and the request
becomes REJECTED; on accept the slots exchange their userId fields (taken
from the requesterId and targetUserId recorded on the request), both become
BUSY, and the request becomes ACCEPTED.  If a referenced slot document no
longer exists, the populated field is null and the status access throws,
surfacing as the catch-all 500. -/
def respondToSwapRequest (db : DB) (userId swapRequestId : Nat) (action : SwapAction) :
    Except ErrCode SwapRequestStatus × DB :=
  match db.swaps.lookup swapRequestId with
  | none => (.error .SWAP_REQUEST_NOT_FOUND, db)
  | some swapRequest =>
    if swapRequest.targetUserId ≠ userId then
      (.error .UNAUTHORIZED_RESPONSE, db)
    else if swapRequest.status ≠ SwapRequestStatus.PENDING then
      (.error .INVALID_REQUEST_STATUS, db)
    else
      match db.events.lookup swapRequest.requesterSlotId,
            db.events.lookup swapRequest.targetSlotId with
      | some requesterSlot, some targetSlot =>
        if requesterSlot.status ≠ EventStatus.SWAP_PENDING ∨
           targetSlot.status ≠ EventStatus.SWAP_PENDING then
          (.error .INVALID_SLOT_STATUS, db)
        else
          match action with
          | .reject =>
            (.ok SwapRequestStatus.REJECTED,
             { db with
                events :=
                  updateById
                    (updateById db.events swapRequest.requesterSlotId
                      fun s => { s with status := EventStatus.SWAPPABLE })
                    swapRequest.targetSlotId
                      fun s => { s with status := EventStatus.SWAPPABLE },
                swaps :=
                  updateById db.swaps swapRequestId
                    fun q => { q with status := SwapRequestStatus.REJECTED } })
          | .accept =>
            (.ok SwapRequestStatus.ACCEPTED,
             { db with
                events :=
                  updateById
                    (updateById db.events swapRequest.requesterSlotId
                      fun s => { s with
                                  userId := swapRequest.targetUserId
                                  status := EventStatus.BUSY })
                    swapRequest.targetSlotId
                      fun s => { s with
                                  userId := swapRequest.requesterId
                                  status := EventStatus.BUSY },
                swaps :=
                  updateById db.swaps swapRequestId
                    fun q => { q with status := SwapRequestStatus.ACCEPTED } })
      | _, _ => (.error .INTERNAL_SERVER_ERROR, db)

/-- Model of the JavaScript String.prototype.trim used by the controllers:
strip leading and trailing whitespace.  Defined over the character list so
that it evaluates inside the kernel. -/
def trimString (s : String) : String :=
  String.mk (((s.data.dropWhile Char.isWhitespace).reverse.dropWhile
    Char.isWhitespace).reverse)

/-- Embedding of createEvent (eventController.ts lines 42-139) together with
the Event schema save-time validation (Event.ts lines 27-33).  Controller
checks: required fields present (a missing or empty title is falsy), start
strictly before end, an optional status taken verbatim from the request body
(any of the three enum values passes validation, SWAP_PENDING included),
default BUSY.  The schema then trims the title and requires the trimmed value
to be nonempty (required plus minlength 1) and at most 100 characters
(maxlength); a violation makes save() throw a ValidationError that the
controller surfaces as the catch-all 500 with nothing stored. -/
def createEvent (db : DB) (userId : Nat) (title : String) (startTime endTime : Nat)
    (status : Option EventStatus) : Except ErrCode Nat × DB :=
  if title = "" then
    (.error .VALIDATION_ERROR, db)
  else if endTime ≤ startTime then
    (.error .VALIDATION_ERROR, db)
  else if trimString title = "" ∨ 100 < (trimString title).length then
    (.error .INTERNAL_SERVER_ERROR, db)
  else
    (.ok db.nextEventId,
     { db with
        events :=
          (db.nextEventId,
           { userId := userId
             title := trimString title
             startTime := startTime
             endTime := endTime
             status := status.getD EventStatus.BUSY }) :: db.events,
        nextEventId := db.nextEventId + 1 })

/-- Embedding of updateEvent (eventController.ts lines 142-293).  Checks in
source order: the event exists; the caller owns it; a provided title is
nonempty after trimming; provided times keep start strictly before end; a
provided status may not move an event out of SWAP_PENDING (moving it into
SWAP_PENDING, or re-asserting SWAP_PENDING, passes).  Title and time edits
are applied regardless of the current status.  The findByIdAndUpdate call
runs the schema validators on the updated paths (runValidators: true), so a
provided title longer than 100 characters after trimming makes the update
throw, surfaced as the catch-all 500 with nothing stored; the other title
validators cannot fire past the controller's own nonempty-after-trim check. -/
def updateEvent (db : DB) (userId eventId : Nat) (title : Option String)
    (startTime endTime : Option Nat) (status : Option EventStatus) :
    Except ErrCode Event × DB :=
  match db.events.lookup eventId with
  | none => (.error .NOT_FOUND, db)
  | some existingEvent =>
    if existingEvent.userId ≠ userId then
      (.error .FORBIDDEN, db)
    else if title.any fun t => trimString t == "" then
      (.error .VALIDATION_ERROR, db)
    else
      let newStartTime := startTime.getD existingEvent.startTime
      let newEndTime := endTime.getD existingEvent.endTime
      if (startTime.isSome ∨ endTime.isSome) ∧ newEndTime ≤ newStartTime then
        (.error .VALIDATION_ERROR, db)
      else if status.any fun st =>
          existingEvent.status == EventStatus.SWAP_PENDING &&
          st != EventStatus.SWAP_PENDING then
        (.error .VALIDATION_ERROR, db)
      else if title.any fun t => 100 < (trimString t).length then
        (.error .INTERNAL_SERVER_ERROR, db)
      else
        let updated : Event :=
          { existingEvent with
              title := (title.map trimString).getD existingEvent.title
              startTime := newStartTime
              endTime := newEndTime
              status := status.getD existingEvent.status }
        (.ok updated, { db with events := updateById db.events eventId fun _ => updated })

/-- Embedding of deleteEvent (eventController.ts lines 296-360).  Checks: the
event exists and the caller owns it.  No status check and no swap-request
cleanup: the event record is removed and nothing else changes. -/
def deleteEvent (db : DB) (userId eventId : Nat) : Except ErrCode Unit × DB :=
  match db.events.lookup eventId with
  | none => (.error .NOT_FOUND, db)
  | some existingEvent =>
    if existingEvent.userId ≠ userId then
      (.error .FORBIDDEN, db)
    else
      (.ok (), { db with events := deleteById db.events eventId })

/-- Two swap requests pair the same unordered set of slots. -/
def samePair (o1 o2 : SwapRequest) : Prop :=
  (o1.requesterSlotId = o2.requesterSlotId ∧ o1.targetSlotId = o2.targetSlotId) ∨
  (o1.requesterSlotId = o2.targetSlotId ∧ o1.targetSlotId = o2.requesterSlotId)

instance (o1 o2 : SwapRequest) : Decidable (samePair o1 o2) := by
  unfold samePair
  infer_instance

/-- The swap requests of a stored collection that have status PENDING. -/
def pendingOf (l : List (Nat × SwapRequest)) : List SwapRequest :=
  (l.map Prod.snd).filter fun o => o.status == SwapRequestStatus.PENDING

/-- The swap requests currently stored with status PENDING. -/
def pendingOffers (db : DB) : List SwapRequest :=
  pendingOf db.swaps

/-- Invariant: at most one PENDING swap request exists per unordered pair of
slots, i.e. no two distinct stored PENDING requests pair the same slots. -/
def OpenPairUnique (db : DB) : Prop :=
  (pendingOffers db).Pairwise fun o1 o2 => ¬ samePair o1 o2

/-! ### Concrete fixture states used by the closed theorems -/

/-- A SWAPPABLE slot owned by user 1. -/
def slotA : Event :=
  { userId := 1, title := "a", startTime := 0, endTime := 1, status := .SWAPPABLE }

/-- A SWAPPABLE slot owned by user 2. -/
def slotB : Event :=
  { userId := 2, title := "b", startTime := 2, endTime := 3, status := .SWAPPABLE }

/-- A fresh state: two SWAPPABLE slots owned by two distinct users, no swap
requests. -/
def dbA : DB :=
  { events := [(10, slotA), (20, slotB)], swaps := [], nextEventId := 30, nextSwapId := 100 }

/-- A PENDING swap request pairing slots 10 and 20 (proposer user 1, target user 2). -/
def pendingOffer : SwapRequest :=
  { requesterId := 1, requesterSlotId := 10, targetUserId := 2, targetSlotId := 20,
    status := .PENDING }

/-- Slot 10 while locked by the pending offer. -/
def slotAP : Event := { slotA with status := .SWAP_PENDING }

/-- Slot 20 while locked by the pending offer. -/
def slotBP : Event := { slotB with status := .SWAP_PENDING }

/-- The state reached from dbA by createSwapRequest user 1, slots (10, 20):
both slots SWAP_PENDING and one PENDING swap request. -/
def dbPend : DB :=
  { events := [(10, slotAP), (20, slotBP)], swaps := [(100, pendingOffer)],
    nextEventId := 30, nextSwapId := 101 }

/-- A REJECTED (terminal) swap request over slots 10 and 20. -/
def rejectedOffer : SwapRequest := { pendingOffer with status := .REJECTED }

/-- The state after the offer over (10, 20) was declined: both slots back to
SWAPPABLE with unchanged owners, the request terminal. -/
def dbDone : DB :=
  { events := [(10, slotA), (20, slotB)], swaps := [(100, rejectedOffer)],
    nextEventId := 30, nextSwapId := 101 }

/-! ### Lemmas about the record-store primitives -/

theorem updateById_cons_self {α : Type} (k : Nat) (v : α) (t : List (Nat × α)) (f : α → α) :
    updateById ((k, v) :: t) k f = (k, f v) :: updateById t k f := by
  simp [updateById]

theorem updateById_cons_ne {α : Type} (k id : Nat) (v : α) (t : List (Nat × α)) (f : α → α)
    (hk : k ≠ id) : updateById ((k, v) :: t) id f = (k, v) :: updateById t id f := by
  simp [updateById, hk]

theorem lookup_updateById_self {α : Type} (l : List (Nat × α)) (id : Nat) (f : α → α) :
    (updateById l id f).lookup id = (l.lookup id).map f := by
  induction l with
  | nil => rfl
  | cons p t ih =>
    obtain ⟨k, v⟩ := p
    by_cases hk : k = id
    · subst hk
      rw [updateById_cons_self]
      simp [List.lookup]
    · rw [updateById_cons_ne _ _ _ _ _ hk]
      simp only [List.lookup, beq_false_of_ne (Ne.symm hk)]
      exact ih

theorem lookup_updateById_ne {α : Type} (l : List (Nat × α)) (id j : Nat) (f : α → α)
    (h : j ≠ id) : (updateById l id f).lookup j = l.lookup j := by
  induction l with
  | nil => rfl
  | cons p t ih =>
    obtain ⟨k, v⟩ := p
    by_cases hk : k = id
    · subst hk
      rw [updateById_cons_self]
      simp only [List.lookup, beq_false_of_ne h]
      exact ih
    · rw [updateById_cons_ne _ _ _ _ _ hk]
      by_cases hj : j = k
      · subst hj
        simp [List.lookup]
      · simp only [List.lookup, beq_false_of_ne hj]
        exact ih

theorem deleteById_cons_self {α : Type} (k : Nat) (v : α) (t : List (Nat × α)) :
    deleteById ((k, v) :: t) k = deleteById t k := by
  simp [deleteById]

theorem deleteById_cons_ne {α : Type} (k id : Nat) (v : α) (t : List (Nat × α))
    (hk : k ≠ id) : deleteById ((k, v) :: t) id = (k, v) :: deleteById t id := by
  simp [deleteById, hk]

theorem lookup_deleteById_self {α : Type} (l : List (Nat × α)) (id : Nat) :
    (deleteById l id).lookup id = none := by
  induction l with
  | nil => rfl
  | cons p t ih =>
    obtain ⟨k, v⟩ := p
    by_cases hk : k = id
    · subst hk
      rw [deleteById_cons_self]
      exact ih
    · rw [deleteById_cons_ne _ _ _ _ hk]
      simp only [List.lookup, beq_false_of_ne (Ne.symm hk)]
      exact ih

theorem lookup_deleteById_ne {α : Type} (l : List (Nat × α)) (id j : Nat)
    (h : j ≠ id) : (deleteById l id).lookup j = l.lookup j := by
  induction l with
  | nil => rfl
  | cons p t ih =>
    obtain ⟨k, v⟩ := p
    by_cases hk : k = id
    · subst hk
      rw [deleteById_cons_self]
      simp only [List.lookup, beq_false_of_ne h]
      exact ih
    · rw [deleteById_cons_ne _ _ _ _ hk]
      by_cases hj : j = k
      · subst hj
        simp [List.lookup]
      · simp only [List.lookup, beq_false_of_ne hj]
        exact ih

/-! ### Claims -/

/-- Claim C1 as stated is false: starting from a fresh state, a first
createSwapRequest for (10, 20) succeeds, and the immediately repeated
identical call returns an error (the slots are now SWAP_PENDING), not the
existing offer id. -/
theorem c1_counterexample :
    (createSwapRequest dbA 1 10 20).1 = .ok 100 ∧
    (createSwapRequest (createSwapRequest dbA 1 10 20).2 1 10 20).1 =
      .error .INVALID_REQUESTER_SLOT_STATUS ∧
    createSwapRequest dbPend 1 10 20 = (.error .INVALID_REQUESTER_SLOT_STATUS, dbPend) :=
  ⟨rfl, rfl, rfl⟩

/-- C1 (amended): whenever a PENDING swap request already pairs the two slots
in either direction, createSwapRequest fails with an error and leaves the
state unchanged; it is not idempotent and never returns the existing offer. -/
theorem c1_duplicate_create_fails (db : DB) (r a b : Nat) (p : Nat × SwapRequest)
    (hmem : p ∈ db.swaps) (hhit : pendingPairHit a b p = true) :
    ∃ e, createSwapRequest db r a b = (.error e, db) := by
  have hany : db.swaps.any (pendingPairHit a b) = true :=
    List.any_eq_true.mpr ⟨p, hmem, hhit⟩
  unfold createSwapRequest
  cases hA : db.events.lookup a with
  | none =>
    cases hB : db.events.lookup b with
    | none => exact ⟨_, rfl⟩
    | some sb => exact ⟨_, rfl⟩
  | some sa =>
    cases hB : db.events.lookup b with
    | none => exact ⟨_, rfl⟩
    | some sb =>
      dsimp only
      by_cases h1 : sa.userId ≠ r
      · rw [if_pos h1]; exact ⟨_, rfl⟩
      · rw [if_neg h1]
        by_cases h2 : sb.userId = r
        · rw [if_pos h2]; exact ⟨_, rfl⟩
        · rw [if_neg h2]
          by_cases h3 : sa.status ≠ EventStatus.SWAPPABLE
          · rw [if_pos h3]; exact ⟨_, rfl⟩
          · rw [if_neg h3]
            by_cases h4 : sb.status ≠ EventStatus.SWAPPABLE
            · rw [if_pos h4]; exact ⟨_, rfl⟩
            · rw [if_neg h4]
              rw [if_pos hany]
              exact ⟨_, rfl⟩

/-- Witness: the amended C1 theorem applied at the concrete locked state. -/
theorem c1_duplicate_create_fails_witness :
    ∃ e, createSwapRequest dbPend 1 10 20 = (.error e, dbPend) :=
  c1_duplicate_create_fails dbPend 1 10 20 (100, pendingOffer) (by decide) (by decide)


/-- C2: for a PENDING swap request whose two distinct referenced slots are both
SWAP_PENDING and whose recorded proposer and target match the slot owners, an
accept by the target owner returns ok, marks the request ACCEPTED, gives each
slot the other slot original owner, and sets both slots to BUSY, all in one
atomic step. -/
theorem c2_accept_exchanges_owners (db : DB) (oid : Nat) (o : SwapRequest) (ra tb : Event)
    (hreq : db.swaps.lookup oid = some o)
    (hpend : o.status = .PENDING)
    (hA : db.events.lookup o.requesterSlotId = some ra)
    (hB : db.events.lookup o.targetSlotId = some tb)
    (hraS : ra.status = .SWAP_PENDING)
    (htbS : tb.status = .SWAP_PENDING)
    (hne : o.requesterSlotId ≠ o.targetSlotId)
    (hown1 : ra.userId = o.requesterId)
    (hown2 : tb.userId = o.targetUserId) :
    (respondToSwapRequest db o.targetUserId oid .accept).1 = .ok .ACCEPTED ∧
    (respondToSwapRequest db o.targetUserId oid .accept).2.events.lookup o.requesterSlotId =
      some { ra with userId := tb.userId, status := .BUSY } ∧
    (respondToSwapRequest db o.targetUserId oid .accept).2.events.lookup o.targetSlotId =
      some { tb with userId := ra.userId, status := .BUSY } ∧
    (respondToSwapRequest db o.targetUserId oid .accept).2.swaps.lookup oid =
      some { o with status := .ACCEPTED } := by
  have hres : respondToSwapRequest db o.targetUserId oid .accept =
      (.ok SwapRequestStatus.ACCEPTED,
       { db with
          events :=
            updateById
              (updateById db.events o.requesterSlotId
                fun s => { s with userId := o.targetUserId, status := EventStatus.BUSY })
              o.targetSlotId
                fun s => { s with userId := o.requesterId, status := EventStatus.BUSY },
          swaps :=
            updateById db.swaps oid
              fun q => { q with status := SwapRequestStatus.ACCEPTED } }) := by
    unfold respondToSwapRequest
    rw [hreq]
    dsimp only
    rw [if_neg (by simp), if_neg (by simp [hpend]), hA, hB]
    dsimp only
    rw [if_neg (by simp [hraS, htbS])]
  refine ⟨by rw [hres], ?_, ?_, ?_⟩
  · simp only [hres]
    rw [lookup_updateById_ne _ _ _ _ hne, lookup_updateById_self, hA]
    simp [hown2]
  · simp only [hres]
    rw [lookup_updateById_self, lookup_updateById_ne _ _ _ _ (Ne.symm hne), hB]
    simp [hown1]
  · simp only [hres]
    rw [lookup_updateById_self, hreq]
    rfl

/-- Witness: the C2 theorem applied at the concrete locked state dbPend. -/
theorem c2_accept_exchanges_owners_witness :
    (respondToSwapRequest dbPend 2 100 .accept).1 = .ok .ACCEPTED ∧
    (respondToSwapRequest dbPend 2 100 .accept).2.events.lookup 10 =
      some { slotAP with userId := 2, status := .BUSY } ∧
    (respondToSwapRequest dbPend 2 100 .accept).2.events.lookup 20 =
      some { slotBP with userId := 1, status := .BUSY } ∧
    (respondToSwapRequest dbPend 2 100 .accept).2.swaps.lookup 100 =
      some { pendingOffer with status := .ACCEPTED } :=
  c2_accept_exchanges_owners dbPend 100 pendingOffer slotAP slotBP rfl rfl rfl rfl rfl rfl
    (by decide) rfl rfl

/-- C3: for a PENDING swap request whose two distinct referenced slots are both
SWAP_PENDING, a reject by the target owner returns ok, marks the request
REJECTED, and reverts both slots to SWAPPABLE with owners unchanged. -/
theorem c3_reject_reverts_slots (db : DB) (oid : Nat) (o : SwapRequest) (ra tb : Event)
    (hreq : db.swaps.lookup oid = some o)
    (hpend : o.status = .PENDING)
    (hA : db.events.lookup o.requesterSlotId = some ra)
    (hB : db.events.lookup o.targetSlotId = some tb)
    (hraS : ra.status = .SWAP_PENDING)
    (htbS : tb.status = .SWAP_PENDING)
    (hne : o.requesterSlotId ≠ o.targetSlotId) :
    (respondToSwapRequest db o.targetUserId oid .reject).1 = .ok .REJECTED ∧
    (respondToSwapRequest db o.targetUserId oid .reject).2.events.lookup o.requesterSlotId =
      some { ra with status := .SWAPPABLE } ∧
    (respondToSwapRequest db o.targetUserId oid .reject).2.events.lookup o.targetSlotId =
      some { tb with status := .SWAPPABLE } ∧
    (respondToSwapRequest db o.targetUserId oid .reject).2.swaps.lookup oid =
      some { o with status := .REJECTED } := by
  have hres : respondToSwapRequest db o.targetUserId oid .reject =
      (.ok SwapRequestStatus.REJECTED,
       { db with
          events :=
            updateById
              (updateById db.events o.requesterSlotId
                fun s => { s with status := EventStatus.SWAPPABLE })
              o.targetSlotId
                fun s => { s with status := EventStatus.SWAPPABLE },
          swaps :=
            updateById db.swaps oid
              fun q => { q with status := SwapRequestStatus.REJECTED } }) := by
    unfold respondToSwapRequest
    rw [hreq]
    dsimp only
    rw [if_neg (by simp), if_neg (by simp [hpend]), hA, hB]
    dsimp only
    rw [if_neg (by simp [hraS, htbS])]
  refine ⟨by rw [hres], ?_, ?_, ?_⟩
  · simp only [hres]
    rw [lookup_updateById_ne _ _ _ _ hne, lookup_updateById_self, hA]
    rfl
  · simp only [hres]
    rw [lookup_updateById_self, lookup_updateById_ne _ _ _ _ (Ne.symm hne), hB]
    rfl
  · simp only [hres]
    rw [lookup_updateById_self, hreq]
    rfl

/-- Witness: the C3 theorem applied at the concrete locked state dbPend. -/
theorem c3_reject_reverts_slots_witness :
    (respondToSwapRequest dbPend 2 100 .reject).1 = .ok .REJECTED ∧
    (respondToSwapRequest dbPend 2 100 .reject).2.events.lookup 10 =
      some { slotAP with status := .SWAPPABLE } ∧
    (respondToSwapRequest dbPend 2 100 .reject).2.events.lookup 20 =
      some { slotBP with status := .SWAPPABLE } ∧
    (respondToSwapRequest dbPend 2 100 .reject).2.swaps.lookup 100 =
      some { pendingOffer with status := .REJECTED } :=
  c3_reject_reverts_slots dbPend 100 pendingOffer slotAP slotBP rfl rfl rfl rfl rfl rfl
    (by decide)


/-- C4: once a swap request is terminal (ACCEPTED or REJECTED), every
respondToSwapRequest call on it leaves the whole state unchanged and returns
an error; for the target owner the error is INVALID_REQUEST_STATUS (the
AlreadyResolved case) for either decision, never a silent success. -/
theorem c4_terminal_resolution_rejected (db : DB) (uid oid : Nat) (act : SwapAction)
    (o : SwapRequest) (hreq : db.swaps.lookup oid = some o)
    (hterm : o.status ≠ .PENDING) :
    (respondToSwapRequest db uid oid act).2 = db ∧
    ∃ e, (respondToSwapRequest db uid oid act).1 = .error e ∧
      (uid = o.targetUserId → e = .INVALID_REQUEST_STATUS) := by
  unfold respondToSwapRequest
  rw [hreq]
  dsimp only
  by_cases h1 : o.targetUserId ≠ uid
  · rw [if_pos h1]
    exact ⟨rfl, ⟨.UNAUTHORIZED_RESPONSE, rfl, fun h => absurd h.symm h1⟩⟩
  · rw [if_neg h1, if_pos hterm]
    exact ⟨rfl, ⟨.INVALID_REQUEST_STATUS, rfl, fun _ => rfl⟩⟩

/-- Witness: the C4 theorem applied to the terminal offer of dbDone. -/
theorem c4_terminal_resolution_rejected_witness :
    (respondToSwapRequest dbDone 2 100 .accept).2 = dbDone ∧
    ∃ e, (respondToSwapRequest dbDone 2 100 .accept).1 = .error e ∧
      ((2 : Nat) = rejectedOffer.targetUserId → e = .INVALID_REQUEST_STATUS) :=
  c4_terminal_resolution_rejected dbDone 2 100 .accept rejectedOffer rfl (by decide)

/-- Every createSwapRequest call either leaves the state unchanged or
reports success with the fresh request id. -/
theorem createSwapRequest_state_cases (db : DB) (r a b : Nat) :
    (createSwapRequest db r a b).2 = db ∨
      (createSwapRequest db r a b).1 = .ok db.nextSwapId := by
  unfold createSwapRequest
  cases hA : db.events.lookup a with
  | none =>
    cases hB : db.events.lookup b with
    | none => exact .inl rfl
    | some sb => exact .inl rfl
  | some sa =>
    cases hB : db.events.lookup b with
    | none => exact .inl rfl
    | some sb =>
      dsimp only
      split_ifs <;> first | exact .inl rfl | exact .inr rfl

/-- Every respondToSwapRequest call either leaves the state unchanged or
reports success. -/
theorem respondToSwapRequest_state_cases (db : DB) (uid oid : Nat) (act : SwapAction) :
    (respondToSwapRequest db uid oid act).2 = db ∨
      ∃ s, (respondToSwapRequest db uid oid act).1 = .ok s := by
  unfold respondToSwapRequest
  cases hreq : db.swaps.lookup oid with
  | none => exact .inl rfl
  | some o =>
    dsimp only
    by_cases h1 : o.targetUserId ≠ uid
    · rw [if_pos h1]; exact .inl rfl
    · rw [if_neg h1]
      by_cases h2 : o.status ≠ SwapRequestStatus.PENDING
      · rw [if_pos h2]; exact .inl rfl
      · rw [if_neg h2]
        cases hA : db.events.lookup o.requesterSlotId with
        | none =>
          cases hB : db.events.lookup o.targetSlotId with
          | none => exact .inl rfl
          | some tb => exact .inl rfl
        | some ra =>
          cases hB : db.events.lookup o.targetSlotId with
          | none => exact .inl rfl
          | some tb =>
            dsimp only
            by_cases h3 : ra.status ≠ EventStatus.SWAP_PENDING ∨
                tb.status ≠ EventStatus.SWAP_PENDING
            · rw [if_pos h3]; exact .inl rfl
            · rw [if_neg h3]
              cases act with
              | accept => exact .inr ⟨_, rfl⟩
              | reject => exact .inr ⟨_, rfl⟩

/-- C5: whenever createSwapRequest or respondToSwapRequest returns an error,
the state is returned exactly as it was: no slot and no swap request has been
modified (the transaction is all-or-nothing). -/
theorem c5_error_means_unchanged : ∀ (db : DB) (r a b uid oid : Nat) (act : SwapAction)
    (e1 e2 : ErrCode),
    ((createSwapRequest db r a b).1 = .error e1 → (createSwapRequest db r a b).2 = db) ∧
    ((respondToSwapRequest db uid oid act).1 = .error e2 →
      (respondToSwapRequest db uid oid act).2 = db) := by
  intro db r a b uid oid act e1 e2
  constructor
  · intro h
    rcases createSwapRequest_state_cases db r a b with hdb | hok
    · exact hdb
    · rw [hok] at h
      simp at h
  · intro h
    rcases respondToSwapRequest_state_cases db uid oid act with hdb | ⟨s, hok⟩
    · exact hdb
    · rw [hok] at h
      simp at h

/-- Witness: the C5 theorem applied to a failing create (self swap) and a
failing resolution (missing request id). -/
theorem c5_error_means_unchanged_witness :
    (createSwapRequest dbA 1 10 10).2 = dbA ∧
    (respondToSwapRequest dbA 2 999 .accept).2 = dbA :=
  ⟨(c5_error_means_unchanged dbA 1 10 10 2 999 .accept .SELF_SWAP_ATTEMPT
      .SWAP_REQUEST_NOT_FOUND).1 rfl,
   (c5_error_means_unchanged dbA 1 10 10 2 999 .accept .SELF_SWAP_ATTEMPT
      .SWAP_REQUEST_NOT_FOUND).2 rfl⟩


/-- C6 fails on the code: on the locked (SWAP_PENDING) slot 10 the owner can
still edit the title through updateEvent and can delete the slot through
deleteEvent; both succeed and mutate or remove the record instead of failing
with a Locked or Forbidden error.  Only a status change away from SWAP_PENDING
is rejected. -/
theorem c6_locked_slot_still_mutable :
    (updateEvent dbPend 1 10 (some "edited") none none none).1 =
      .ok { slotAP with title := "edited" } ∧
    (updateEvent dbPend 1 10 (some "edited") none none none).2.events.lookup 10 =
      some { slotAP with title := "edited" } ∧
    (deleteEvent dbPend 1 10).1 = .ok () ∧
    (deleteEvent dbPend 1 10).2.events.lookup 10 = none ∧
    (updateEvent dbPend 1 10 none none none (some .SWAPPABLE)).1 =
      .error .VALIDATION_ERROR :=
  ⟨rfl, rfl, rfl, rfl, rfl⟩

/-- C7 fails on the code: the owner deletes slot 10 while the PENDING swap
request 100 references it; the deletion succeeds and the swap request is left
stored, still PENDING, pointing at the now missing slot. -/
theorem c7_delete_leaves_open_offer :
    (deleteEvent dbPend 1 10).1 = .ok () ∧
    (deleteEvent dbPend 1 10).2.events.lookup 10 = none ∧
    (deleteEvent dbPend 1 10).2.swaps.lookup 100 = some pendingOffer ∧
    pendingOffer.status = .PENDING ∧
    pendingOffer.requesterSlotId = 10 :=
  ⟨rfl, rfl, rfl, rfl, rfl⟩

/-- Claim C8 as stated is false: a createEvent call that asks for status
SWAP_PENDING succeeds and stores the slot as SWAP_PENDING, and an updateEvent
call moving a SWAPPABLE slot to SWAP_PENDING succeeds as well; neither fails
with Forbidden. -/
theorem c8_counterexample :
    (createEvent dbA 1 "t" 0 1 (some .SWAP_PENDING)).1 = .ok 30 ∧
    (createEvent dbA 1 "t" 0 1 (some .SWAP_PENDING)).2.events.lookup 30 =
      some { userId := 1, title := "t", startTime := 0, endTime := 1,
             status := .SWAP_PENDING } ∧
    (updateEvent dbA 1 10 none none none (some .SWAP_PENDING)).1 =
      .ok { slotA with status := .SWAP_PENDING } :=
  ⟨rfl, rfl, rfl⟩

/-- C8 (amended): every direct external attempt to set SWAP_PENDING succeeds.
With a title that is valid for the Event schema (nonempty after trimming and
at most 100 characters) and valid times, createEvent stores the new slot with
status SWAP_PENDING, and updateEvent by the owner sets an existing slot to
SWAP_PENDING, whatever its current status. -/
theorem c8_direct_lock_accepted (db : DB) (uid eid : Nat) (title : String)
    (s e : Nat) (ev : Event)
    (ht : trimString title ≠ "") (hlen : (trimString title).length ≤ 100)
    (hse : s < e)
    (hev : db.events.lookup eid = some ev) (hown : ev.userId = uid) :
    ((createEvent db uid title s e (some .SWAP_PENDING)).1 = .ok db.nextEventId ∧
     (createEvent db uid title s e (some .SWAP_PENDING)).2.events.lookup db.nextEventId =
       some { userId := uid, title := trimString title, startTime := s, endTime := e,
              status := .SWAP_PENDING }) ∧
    ((updateEvent db uid eid none none none (some .SWAP_PENDING)).1 =
       .ok { ev with status := .SWAP_PENDING } ∧
     (updateEvent db uid eid none none none (some .SWAP_PENDING)).2.events.lookup eid =
       some { ev with status := .SWAP_PENDING }) := by
  have hcreate : createEvent db uid title s e (some .SWAP_PENDING) =
      (.ok db.nextEventId,
       { db with
          events :=
            (db.nextEventId,
             { userId := uid, title := trimString title, startTime := s, endTime := e,
               status := EventStatus.SWAP_PENDING }) :: db.events,
          nextEventId := db.nextEventId + 1 }) := by
    unfold createEvent
    rw [if_neg (fun h => ht (by rw [h]; rfl)), if_neg (not_le.mpr hse),
      if_neg (not_or.mpr ⟨ht, not_lt.mpr hlen⟩)]
    rfl
  have hupdate : updateEvent db uid eid none none none (some .SWAP_PENDING) =
      (.ok { ev with status := EventStatus.SWAP_PENDING },
       { db with
          events := updateById db.events eid
            fun _ => { ev with status := EventStatus.SWAP_PENDING } }) := by
    unfold updateEvent
    rw [hev]
    dsimp only
    rw [if_neg (by simp [hown]), if_neg (by simp), if_neg (by simp), if_neg (by simp),
      if_neg (by simp)]
    rfl
  refine ⟨⟨by rw [hcreate], ?_⟩, by rw [hupdate], ?_⟩
  · simp only [hcreate]
    simp [List.lookup]
  · simp only [hupdate]
    rw [lookup_updateById_self, hev]
    rfl

/-- Witness: the amended C8 theorem applied at the fresh state dbA. -/
theorem c8_direct_lock_accepted_witness :
    (((createEvent dbA 1 "u" 0 1 (some .SWAP_PENDING)).1 = .ok dbA.nextEventId ∧
      (createEvent dbA 1 "u" 0 1 (some .SWAP_PENDING)).2.events.lookup dbA.nextEventId =
        some { userId := 1, title := trimString "u", startTime := 0, endTime := 1,
               status := .SWAP_PENDING }) ∧
     ((updateEvent dbA 1 10 none none none (some .SWAP_PENDING)).1 =
        .ok { slotA with status := .SWAP_PENDING } ∧
      (updateEvent dbA 1 10 none none none (some .SWAP_PENDING)).2.events.lookup 10 =
        some { slotA with status := .SWAP_PENDING })) :=
  c8_direct_lock_accepted dbA 1 10 "u" 0 1 slotA (by decide) (by decide) (by decide) rfl rfl


/-- Shape of the swaps collection after createSwapRequest: unchanged, or (on
success) a new PENDING request over (a, b) prepended, together with the
guarantee that no stored PENDING request paired the two slots. -/
theorem createSwapRequest_swaps_shape (db : DB) (r a b : Nat) :
    (createSwapRequest db r a b).2.swaps = db.swaps ∨
    (db.swaps.any (pendingPairHit a b) = false ∧
     ∃ t, (createSwapRequest db r a b).2.swaps =
       (db.nextSwapId,
        { requesterId := r, requesterSlotId := a, targetUserId := t,
          targetSlotId := b, status := SwapRequestStatus.PENDING }) :: db.swaps) := by
  unfold createSwapRequest
  cases hA : db.events.lookup a with
  | none =>
    cases hB : db.events.lookup b with
    | none => exact .inl rfl
    | some sb => exact .inl rfl
  | some sa =>
    cases hB : db.events.lookup b with
    | none => exact .inl rfl
    | some sb =>
      dsimp only
      split_ifs with h1 h2 h3 h4 h5 h6 h7
      · exact .inl rfl
      · exact .inl rfl
      · exact .inl rfl
      · exact .inl rfl
      · exact .inl rfl
      · exact .inl rfl
      · exact .inl rfl
      · exact .inr ⟨by simpa using h5, sb.userId, rfl⟩

/-- Shape of the swaps collection after respondToSwapRequest: unchanged, or
one stored request updated to a terminal status. -/
theorem respondToSwapRequest_swaps_shape (db : DB) (uid oid : Nat) (act : SwapAction) :
    (respondToSwapRequest db uid oid act).2.swaps = db.swaps ∨
    ∃ st, st ≠ SwapRequestStatus.PENDING ∧
      (respondToSwapRequest db uid oid act).2.swaps =
        updateById db.swaps oid fun q => { q with status := st } := by
  unfold respondToSwapRequest
  cases hreq : db.swaps.lookup oid with
  | none => exact .inl rfl
  | some o =>
    dsimp only
    by_cases h1 : o.targetUserId ≠ uid
    · rw [if_pos h1]; exact .inl rfl
    · rw [if_neg h1]
      by_cases h2 : o.status ≠ SwapRequestStatus.PENDING
      · rw [if_pos h2]; exact .inl rfl
      · rw [if_neg h2]
        cases hA : db.events.lookup o.requesterSlotId with
        | none =>
          cases hB : db.events.lookup o.targetSlotId with
          | none => exact .inl rfl
          | some tb => exact .inl rfl
        | some ra =>
          cases hB : db.events.lookup o.targetSlotId with
          | none => exact .inl rfl
          | some tb =>
            dsimp only
            by_cases h3 : ra.status ≠ EventStatus.SWAP_PENDING ∨
                tb.status ≠ EventStatus.SWAP_PENDING
            · rw [if_pos h3]; exact .inl rfl
            · rw [if_neg h3]
              cases act with
              | accept => exact .inr ⟨SwapRequestStatus.ACCEPTED, by simp, rfl⟩
              | reject => exact .inr ⟨SwapRequestStatus.REJECTED, by simp, rfl⟩

/-- Membership in the PENDING sublist comes from a stored record. -/
theorem mem_pendingOf (l : List (Nat × SwapRequest)) (y : SwapRequest)
    (hy : y ∈ pendingOf l) :
    y.status = SwapRequestStatus.PENDING ∧ ∃ p ∈ l, p.2 = y := by
  unfold pendingOf at hy
  rcases List.mem_filter.mp hy with ⟨hmem, hst⟩
  refine ⟨by simpa using hst, ?_⟩
  rcases List.mem_map.mp hmem with ⟨p, hp, hpy⟩
  exact ⟨p, hp, hpy⟩

/-- Prepending a PENDING record prepends it to the PENDING sublist. -/
theorem pendingOf_cons_pending (i : Nat) (q : SwapRequest) (l : List (Nat × SwapRequest))
    (hq : q.status = SwapRequestStatus.PENDING) :
    pendingOf ((i, q) :: l) = q :: pendingOf l := by
  simp [pendingOf, List.filter_cons, hq]

/-- Setting one record to a terminal status can only shrink the PENDING sublist. -/
theorem pendingOf_updateById_sublist (l : List (Nat × SwapRequest)) (oid : Nat)
    (st : SwapRequestStatus) (hst : st ≠ SwapRequestStatus.PENDING) :
    List.Sublist (pendingOf (updateById l oid fun q => { q with status := st }))
      (pendingOf l) := by
  induction l with
  | nil => simp [pendingOf, updateById]
  | cons p t ih =>
    obtain ⟨k, v⟩ := p
    by_cases hk : k = oid
    · subst hk
      rw [updateById_cons_self]
      have hdrop1 : pendingOf ((k, { v with status := st }) ::
          updateById t k fun q => { q with status := st }) =
          pendingOf (updateById t k fun q => { q with status := st }) := by
        simp [pendingOf, List.filter_cons, beq_iff_eq, hst]
      rw [hdrop1]
      by_cases hv : v.status = SwapRequestStatus.PENDING
      · rw [pendingOf_cons_pending _ _ _ hv]
        exact ih.trans (List.sublist_cons_self _ _)
      · have hdrop2 : pendingOf ((k, v) :: t) = pendingOf t := by
          simp [pendingOf, List.filter_cons, beq_iff_eq, hv]
        rw [hdrop2]
        exact ih
    · rw [updateById_cons_ne _ _ _ _ _ hk]
      by_cases hv : v.status = SwapRequestStatus.PENDING
      · rw [pendingOf_cons_pending _ _ _ hv, pendingOf_cons_pending _ _ _ hv]
        exact List.Sublist.cons₂ v ih
      · have hdrop1 : pendingOf ((k, v) ::
            updateById t oid fun q => { q with status := st }) =
            pendingOf (updateById t oid fun q => { q with status := st }) := by
          simp [pendingOf, List.filter_cons, beq_iff_eq, hv]
        have hdrop2 : pendingOf ((k, v) :: t) = pendingOf t := by
          simp [pendingOf, List.filter_cons, beq_iff_eq, hv]
        rw [hdrop1, hdrop2]
        exact ih

/-- C9: the uniqueness invariant, at most one PENDING swap request per
unordered pair of slots, is preserved by every createSwapRequest call and by
every respondToSwapRequest call. -/
theorem c9_open_pair_unique_preserved (db : DB) (r a b uid oid : Nat) (act : SwapAction)
    (hinv : OpenPairUnique db) :
    OpenPairUnique (createSwapRequest db r a b).2 ∧
    OpenPairUnique (respondToSwapRequest db uid oid act).2 := by
  constructor
  · rcases createSwapRequest_swaps_shape db r a b with h | ⟨hfalse, t, h⟩
    · unfold OpenPairUnique pendingOffers
      rw [h]
      exact hinv
    · unfold OpenPairUnique pendingOffers
      rw [h, pendingOf_cons_pending _ _ _ rfl]
      refine List.Pairwise.cons ?_ hinv
      intro y hy
      rcases mem_pendingOf _ _ hy with ⟨hyst, p, hp, hpy⟩
      have hmiss := List.any_eq_false.mp hfalse p hp
      intro hs
      simp only [samePair] at hs
      rcases hs with ⟨hs1, hs2⟩ | ⟨hs1, hs2⟩ <;>
        simp [pendingPairHit, hpy, hyst, ← hs1, ← hs2] at hmiss
  · rcases respondToSwapRequest_swaps_shape db uid oid act with h | ⟨st, hst, h⟩
    · unfold OpenPairUnique pendingOffers
      rw [h]
      exact hinv
    · unfold OpenPairUnique pendingOffers
      rw [h]
      exact hinv.sublist (pendingOf_updateById_sublist db.swaps oid st hst)

/-- Witness: the C9 theorem applied at the fresh state dbA, whose PENDING
collection is empty. -/
theorem c9_open_pair_unique_preserved_witness :
    OpenPairUnique (createSwapRequest dbA 1 10 20).2 ∧
    OpenPairUnique (respondToSwapRequest dbA 2 999 .accept).2 :=
  c9_open_pair_unique_preserved dbA 1 10 20 2 999 .accept (by exact List.Pairwise.nil)


/-- C10: the schema unique index covers the ordered (requesterSlotId,
targetSlotId) pair regardless of status.  Once any request for the ordered
pair (s1, s2) exists, a later createSwapRequest for (s1, s2) fails with the
internal (non-domain) 500 error even when both slots are SWAPPABLE again and
no PENDING request pairs them, while the reversed pair (s2, s1) is not
blocked by the index and succeeds. -/
theorem c10_ordered_unique_index (db : DB) (r t s1 s2 i : Nat) (sa sb : Event)
    (o : SwapRequest)
    (hA : db.events.lookup s1 = some sa) (hB : db.events.lookup s2 = some sb)
    (hsa : sa.userId = r) (hsb : sb.userId = t) (hrt : t ≠ r) (hne : s1 ≠ s2)
    (hsaS : sa.status = EventStatus.SWAPPABLE) (hsbS : sb.status = EventStatus.SWAPPABLE)
    (hmem : (i, o) ∈ db.swaps)
    (ho1 : o.requesterSlotId = s1) (ho2 : o.targetSlotId = s2)
    (hnp : db.swaps.any (pendingPairHit s1 s2) = false)
    (hrev : db.swaps.any (orderedPairHit s2 s1) = false) :
    createSwapRequest db r s1 s2 = (.error .INTERNAL_SERVER_ERROR, db) ∧
    (createSwapRequest db t s2 s1).1 = .ok db.nextSwapId := by
  have hord : db.swaps.any (orderedPairHit s1 s2) = true :=
    List.any_eq_true.mpr ⟨(i, o), hmem, by simp [orderedPairHit, ho1, ho2]⟩
  have hnp2 : db.swaps.any (pendingPairHit s2 s1) = false := by
    rw [List.any_eq_false]
    intro p hp
    have hthis := List.any_eq_false.mp hnp p hp
    simp only [pendingPairHit] at hthis ⊢
    rw [Bool.or_comm] at hthis
    exact hthis
  constructor
  · unfold createSwapRequest
    rw [hA, hB]
    dsimp only
    rw [if_neg (by simp [hsa]), if_neg (by simp [hsb]; exact hrt),
      if_neg (by simp [hsaS]), if_neg (by simp [hsbS]), if_neg (by simp [hnp]),
      if_pos hord]
  · unfold createSwapRequest
    rw [hB, hA]
    dsimp only
    rw [if_neg (by simp [hsb]), if_neg (by simp [hsa]; exact fun h => hrt h.symm),
      if_neg (by simp [hsbS]), if_neg (by simp [hsaS]), if_neg (by simp [hnp2]),
      if_neg (by simp [hrev]),
      if_neg (by rw [hsa]; exact fun hc => hc.elim (fun h => hrt h) fun h => hne h.symm)]

/-- Witness: the C10 theorem applied at dbDone, where the request over
(10, 20) is already terminal and both slots are SWAPPABLE again. -/
theorem c10_ordered_unique_index_witness :
    createSwapRequest dbDone 1 10 20 = (.error .INTERNAL_SERVER_ERROR, dbDone) ∧
    (createSwapRequest dbDone 2 20 10).1 = .ok dbDone.nextSwapId :=
  c10_ordered_unique_index dbDone 1 2 10 20 100 slotA slotB rejectedOffer rfl rfl rfl rfl
    (by decide) (by decide) rfl rfl (by decide) rfl rfl (by decide) (by decide)

end SlotSwapper
